import Mathlib

/-!
A shallow embedding of the nxbt fork's two source files:

* `src/nxbt/bluez.py` — the BlueZ adapter/identity layer: D-Bus object
  enumeration, MAC-address spoofing through `hcitool`/`hciconfig`, the
  systemd override toggle, and the internal command runner.
* `src/main.py` — the Flask control plane over the shared `wrapper` dict
  and the `main_thread` transmission loop with recording/playback.

Side-effecting Python is embedded as pure functions over explicit state:
filesystem and process effects become traces of `FsAction`s or `Except`
results, D-Bus managed objects become lists of records, and the opaque
JSON input packets become a type parameter `P` (a `json.loads(json.dumps(x))`
deep copy of a packet is content-equal to `x`, so a copy is the identity in
this value model).
-/

/-- Python's `str.split(sep)` for a one-character separator, on the
character list of the string: `""` splits to `[""]`, separators at the
ends produce empty fields, exactly as in CPython. -/
def splitOnCharList (sep : Char) : List Char → List (List Char)
  | [] => [[]]
  | c :: rest =>
    let r := splitOnCharList sep rest
    if c = sep then
      [] :: r
    else
      match r with
      | [] => [[c]]
      | h :: t => (c :: h) :: t

/-- Python's `str.split(sep)` for a one-character separator, on `String`. -/
def pySplit (sep : Char) (s : String) : List String :=
  (splitOnCharList sep s.toList).map fun l => String.mk l

/-- Python's `str.upper()` restricted to the ASCII mapping used by the
aliases and addresses in this code base. -/
def pyUpper (s : String) : String :=
  String.mk (s.toList.map Char.toUpper)

/-- Truthiness of the `alias_filter=False`-style optional string argument:
`None`/`False` is modelled as `none`, and a present string is truthy
exactly when it is non-empty, as in Python. -/
def pyTruthy : Option String → Bool
  | none => false
  | some s => s ≠ ""

/-- The `org.bluez` D-Bus service name constant from `bluez.py`. -/
def SERVICE_NAME : String := "org.bluez"

/-- The `org.bluez.Adapter1` interface constant from `bluez.py`. -/
def ADAPTER_INTERFACE : String := SERVICE_NAME ++ ".Adapter1"

/-- The `org.bluez.Device1` interface constant from `bluez.py`. -/
def DEVICE_INTERFACE : String := SERVICE_NAME ++ ".Device1"

/-- One `org.bluez.Device1` peer record as observed through the D-Bus
properties that `find_connected_devices` reads: the object path, the
`Alias` property and the `Connected` property. -/
structure Device where
  path : String
  Alias : String
  Connected : Bool
deriving DecidableEq

/-- Embeds `BlueZ.find_connected_devices` from `bluez.py` (lines 414-447):
walk every managed object exposing `org.bluez.Device1`, and for each
connected one run the source's `if alias_filter and device_alias ==
alias_filter.upper()` / `else` pair — both branches of which append the
path. The device alias has already been uppercased by the property read,
as in the source. -/
def find_connected_devices (devices : List Device) (alias_filter : Option String) : List String :=
  devices.foldl
    (fun conn_devices d =>
      if d.Connected then
        if pyTruthy alias_filter && (pyUpper d.Alias == pyUpper (alias_filter.getD "")) then
          conn_devices ++ [d.path]
        else
          conn_devices ++ [d.path]
      else conn_devices)
    []

example :
    find_connected_devices [⟨"/org/bluez/hci0/dev_AA", "LG TV", true⟩] (some "Pro Controller")
      = ["/org/bluez/hci0/dev_AA"] := by decide

/-- The observable outcome of one `subprocess.run` call as read by
`_run_command`: captured stdout, captured stderr (decoded), and the
process exit code. -/
structure ProcResult where
  stdout : String
  stderr : String
  returncode : Int
deriving DecidableEq

/-- Python's `s.replace(chr(10), empty)` on the captured stderr: every
newline character is removed. -/
def removeNewlines (s : String) : String :=
  String.mk (s.toList.filter fun c => c ≠ '\n')

/-- Embeds `_run_command` from `bluez.py` (lines 150-169), given the
outcome of the underlying `subprocess.run`: strip newlines from the
decoded stderr and raise exactly when the remainder is non-empty,
returning the result otherwise. The exit code is never consulted. -/
def run_command (r : ProcResult) : Except String ProcResult :=
  let cmd_err := removeNewlines r.stderr
  if cmd_err ≠ "" then Except.error cmd_err else Except.ok r

/-- One externally visible effect of `toggle_clean_bluez` or
`replace_mac_addresses`: a filesystem edit, a shell command handed to
`_run_command`, or a `time.sleep`. -/
inductive FsAction where
  | mkOverrideDir : FsAction
  | writeOverride : String → FsAction
  | removeOverride : FsAction
  | runCommand : List String → FsAction
  | sleepHalfSecond : FsAction
deriving DecidableEq

/-- The state of the host that `toggle_clean_bluez` inspects: whether
`/run/systemd/system/bluetooth.service.d/nxbt.conf` exists, and the lines
of `/lib/systemd/system/bluetooth.service`. -/
structure SystemdEnv where
  override_exists : Bool
  service_lines : List String
deriving DecidableEq

/-- The `for line in f: if line.startswith ExecStart= : break / else raise`
scan of the service file in `toggle_clean_bluez`: first line starting with
the `ExecStart=` prefix, if any. -/
def findExecStart : List String → Option String
  | [] => none
  | l :: rest => if l.startsWith "ExecStart=" then some l else findExecStart rest

/-- The `systemctl daemon-reload`, `systemctl restart bluetooth`,
`time.sleep(0.5)` tail shared by both restart paths of
`toggle_clean_bluez`. -/
def restartActions : List FsAction :=
  [FsAction.runCommand ["systemctl", "daemon-reload"],
   FsAction.runCommand ["systemctl", "restart", "bluetooth"],
   FsAction.sleepHalfSecond]

/-- Embeds `toggle_clean_bluez` from `bluez.py` (lines 95-147) as the trace
of effects it performs on a given host state: with `toggle = true` it
returns immediately when the override file already exists, otherwise
writes the override built from the service file's `ExecStart=` line and
restarts; with `toggle = false` it returns immediately when removing the
override hits `FileNotFoundError`, otherwise removes it and restarts. -/
def toggle_clean_bluez (toggle : Bool) (env : SystemdEnv) : Except String (List FsAction) :=
  if toggle then
    if env.override_exists then
      Except.ok []
    else
      match findExecStart env.service_lines with
      | none => Except.error "systemd service file doesn't have a ExecStart line"
      | some line =>
        let exec_start := line.trim ++ " --compat --noplugin=*"
        Except.ok ([FsAction.mkOverrideDir,
                    FsAction.writeOverride ("[Service]\nExecStart=\n" ++ exec_start)]
                   ++ restartActions)
  else
    if env.override_exists then
      Except.ok (FsAction.removeOverride :: restartActions)
    else
      Except.ok []

/-- The `hcitool -i <id> cmd 0x3f 0x001 <octets reversed>` vendor command
built by `replace_mac_addresses` for one adapter path and one MAC string:
the adapter id is the last `/`-separated component of the path, and the
six `:`-separated octets are passed as `0x`-prefixed arguments from
`mac[5]` down to `mac[0]`. -/
def spoofVendorCmd (adapter_path address : String) : List String :=
  let adapter_id := (pySplit '/' adapter_path).getLastD ""
  let mac := pySplit ':' address
  ["hcitool", "-i", adapter_id, "cmd", "0x3f", "0x001",
   "0x" ++ mac.getD 5 "", "0x" ++ mac.getD 4 "", "0x" ++ mac.getD 3 "",
   "0x" ++ mac.getD 2 "", "0x" ++ mac.getD 1 "", "0x" ++ mac.getD 0 ""]

/-- The `hciconfig <id> reset` command issued right after the vendor
command for one adapter path. -/
def spoofResetCmd (adapter_path : String) : List String :=
  ["hciconfig", (pySplit '/' adapter_path).getLastD "", "reset"]

/-- The full command trace of the `for i in range(len(adapter_paths))`
loop of `replace_mac_addresses`: per index, the vendor command then the
radio reset. List indexing in the source is total here via `getD`; the
theorems about it carry the six-octet hypothesis under which `getD`
coincides with Python's checked indexing. -/
def spoofTrace (adapter_paths addresses : List String) : List (List String) :=
  (adapter_paths.zip addresses).flatMap fun pa =>
    [spoofVendorCmd pa.1 pa.2, spoofResetCmd pa.1]

/-- Embeds `replace_mac_addresses` from `bluez.py` (lines 172-204), with
the availability of the two helper binaries made explicit: it raises when
`hcitool` or `hciconfig` is missing, asserts the two lists have equal
length when `addresses` is truthy, and otherwise performs the per-adapter
vendor command and reset trace. -/
def replace_mac_addresses (hcitool_available hciconfig_available : Bool)
    (adapter_paths addresses : List String) : Except String (List (List String)) :=
  if hcitool_available = false then
    Except.error "hcitool is not available on this system."
  else if hciconfig_available = false then
    Except.error "hciconfig is not available on this system."
  else if addresses ≠ [] ∧ addresses.length ≠ adapter_paths.length then
    Except.error "AssertionError"
  else
    Except.ok (spoofTrace adapter_paths addresses)

example :
    replace_mac_addresses true true ["/org/bluez/hci0"] ["11:22:33:44:55:66"]
      = Except.ok
          [["hcitool", "-i", "hci0", "cmd", "0x3f", "0x001",
            "0x66", "0x55", "0x44", "0x33", "0x22", "0x11"],
           ["hciconfig", "hci0", "reset"]] := by rfl

/-- One entry of the D-Bus managed-object set walked by
`find_object_path`: its object path and, per interface it exposes, the
`Address` property that the search may compare against. -/
structure ManagedObject where
  path : String
  interfaces : List (String × String)
deriving DecidableEq

/-- Embeds `find_object_path` from `bluez.py` (lines 19-57): walk the
managed objects, skip those not exposing the interface, and return the
first whose path is accepted — always when no `object_name` is given,
otherwise when the name equals the interface's `Address` or is a suffix
of the path. -/
def find_object_path (objects : List ManagedObject) (interface_name : String)
    (object_name : Option String) : Option String :=
  match objects with
  | [] => none
  | o :: rest =>
    match o.interfaces.lookup interface_name with
    | none => find_object_path rest interface_name object_name
    | some addr =>
      match object_name with
      | none => some o.path
      | some n =>
        if n = addr ∨ o.path.endsWith n then some o.path
        else find_object_path rest interface_name object_name

/-- Embeds the adapter-resolution prefix of `BlueZ.__init__` from
`bluez.py` (lines 262-279), the part that decides between the
adapter-not-found exception and a usable device path: the explicit
`adapter_path` argument (default `/org/bluez/hci0`, modelled as
`some "/org/bluez/hci0"`) is taken as-is when not `None`; only when it is
`None` is the managed-object set searched for an `org.bluez.Adapter1`
interface, and only a failed search raises
`Unable to find a bluetooth adapter`. -/
def blueZ_init (objects : List ManagedObject) (adapter_path : Option String) :
    Except String String :=
  let device_path :=
    match adapter_path with
    | some p => some p
    | none => find_object_path objects ADAPTER_INTERFACE none
  match device_path with
  | none => Except.error "Unable to find a bluetooth adapter"
  | some p => Except.ok p

/-- The shared `wrapper` dict of `main.py`: the desired packet, the two
mode flags, and the `input_list` key, which is absent (`none`) until
created by the connected phase of `main_thread` or by a set/clear request.
Packets are opaque JSON values, the type parameter `P`. -/
structure Wrapper (P : Type) where
  packet : P
  recording : Bool
  playing : Bool
  input_list : Option (List P)
deriving DecidableEq

/-- The module-level initialisation of `wrapper` in `main.py` (lines
34-37): a copy of `DIRECT_INPUT_IDLE_PACKET` (here the given `idle`
value), `recording = False`, `playing = False`, and no `input_list` key. -/
def initial_wrapper {P : Type} (idle : P) : Wrapper P :=
  { packet := idle, recording := false, playing := false, input_list := none }

/-- Embeds the `get_input_list` endpoint of `main.py` (lines 73-75):
`wrapper.get` of an absent key raises `KeyError`, a present key returns
its list. -/
def get_input_list {P : Type} (w : Wrapper P) : Except String (List P) :=
  match w.input_list with
  | none => Except.error "KeyError: input_list"
  | some l => Except.ok l

/-- Embeds the `set_input_list` endpoint of `main.py` (lines 78-81). -/
def set_input_list {P : Type} (w : Wrapper P) (l : List P) : Wrapper P :=
  { w with input_list := some l }

/-- Embeds the `clear_input_list` endpoint of `main.py` (lines 84-87): it
assigns the empty list to the `input_list` key and returns; no other
field of `wrapper` is touched. -/
def clear_input_list {P : Type} (w : Wrapper P) : Wrapper P :=
  { w with input_list := some [] }

/-- Embeds the `set_playing` endpoint of `main.py` (lines 67-70). -/
def set_playing {P : Type} (w : Wrapper P) (b : Bool) : Wrapper P :=
  { w with playing := b }

/-- Embeds the `set_recording` endpoint of `main.py` (lines 56-59). -/
def set_recording {P : Type} (w : Wrapper P) (b : Bool) : Wrapper P :=
  { w with recording := b }

/-- Embeds `wrapper.set input_list = empty` executed by `main_thread` at
line 101 of `main.py`, once the controller session reports the
`connected` phase. -/
def connected_init {P : Type} (w : Wrapper P) : Wrapper P :=
  { w with input_list := some [] }

/-- The state read and written by one iteration of `main_thread`'s
transmission loop in `main.py` (lines 102-113). Inside the loop the
`input_list` key always exists (it is created at line 101 before the loop
starts and no endpoint ever deletes it), so it is a plain list here. -/
structure LoopState (P : Type) where
  packet : P
  recording : Bool
  playing : Bool
  input_list : List P
deriving DecidableEq

/-- Embeds one iteration of the `while True` transmission loop of
`main_thread` (`main.py` lines 102-113), returning the packets pushed to
`server.state` as `direct_input` this iteration together with the new
state. If `playing` is set, the `for action in input_list` loop transmits
every recorded packet in order and `continue` skips the rest of the body,
so nothing is appended; otherwise one copy of the desired packet is
transmitted and, if `recording` is set, a copy of it is appended to the
list. The `json` round-trip copies preserve content, so they are the
identity here. -/
def main_tick {P : Type} (s : LoopState P) : List P × LoopState P :=
  if s.playing then
    (s.input_list, s)
  else if s.recording then
    ([s.packet], { s with input_list := s.input_list ++ [s.packet] })
  else
    ([s.packet], s)

/-- A recording session over `main_tick`: the external caller writes each
packet of `ps` into `wrapper.packet` in turn (the `POST /api/gamepad`
endpoint) and one loop iteration runs after each write. -/
def record_session {P : Type} (s : LoopState P) (ps : List P) : LoopState P :=
  ps.foldl (fun st p => (main_tick { st with packet := p }).2) s

example :
    record_session (⟨0, true, false, []⟩ : LoopState Nat) [7, 8, 9]
      = ⟨9, true, false, [7, 8, 9]⟩ := by decide

example :
    main_tick (⟨0, true, true, [4, 5]⟩ : LoopState Nat) = ([4, 5], ⟨0, true, true, [4, 5]⟩) := by
  decide

/-- Embeds the `get_gamepad` endpoint of `main.py` (lines 45-48): the
`POST /api/gamepad` handler stores the request body as the desired
packet. -/
def get_gamepad {P : Type} (w : Wrapper P) (j : P) : Wrapper P :=
  { w with packet := j }

/-- C1: the claim says `find_connected_devices` with a non-empty alias
filter returns exactly the connected devices whose alias matches and
excludes the rest. In the source both branches of the
`if alias_filter and ...` / `else` pair append the path, so a connected
device whose alias (`LG TV`) differs from the filter (`Pro Controller`)
is still returned. -/
theorem find_connected_devices_ignores_filter :
    find_connected_devices [⟨"/org/bluez/hci0/dev_AA_BB", "LG TV", true⟩] (some "Pro Controller")
      = ["/org/bluez/hci0/dev_AA_BB"] ∧
    pyUpper "LG TV" ≠ pyUpper "Pro Controller" := by
  constructor
  · rfl
  · decide

/-- C2: for every adapter path and six-octet MAC address handed to
`replace_mac_addresses` (helper tools available, list lengths equal), the
emitted trace starts with the `hcitool` vendor command carrying the six
octets as individual `0x`-prefixed arguments in reversed order, followed
by the `hciconfig <adapter id> reset` radio reset, before the trace of the
remaining adapters. -/
theorem replace_mac_addresses_swaps_octets (p a aid o0 o1 o2 o3 o4 o5 : String)
    (ps as : List String)
    (hsplit : pySplit ':' a = [o0, o1, o2, o3, o4, o5])
    (haid : (pySplit '/' p).getLastD "" = aid)
    (hlen : as.length = ps.length) :
    replace_mac_addresses true true (p :: ps) (a :: as)
      = Except.ok
          (["hcitool", "-i", aid, "cmd", "0x3f", "0x001",
            "0x" ++ o5, "0x" ++ o4, "0x" ++ o3, "0x" ++ o2, "0x" ++ o1, "0x" ++ o0]
           :: ["hciconfig", aid, "reset"]
           :: spoofTrace ps as) := by
  have haid2 : (pySplit '/' p).getLast?.getD "" = aid := by
    rw [← List.getLastD_eq_getLast?]
    exact haid
  unfold replace_mac_addresses
  simp [hlen, spoofTrace, spoofVendorCmd, spoofResetCmd, hsplit, haid, haid2]

/-- Witness for C2: the spec's scenario, spoofing `hci0` to
`11:22:33:44:55:66`. -/
theorem replace_mac_addresses_swaps_octets_witness :
    replace_mac_addresses true true ["/org/bluez/hci0"] ["11:22:33:44:55:66"]
      = Except.ok
          (["hcitool", "-i", "hci0", "cmd", "0x3f", "0x001",
            "0x" ++ "66", "0x" ++ "55", "0x" ++ "44", "0x" ++ "33", "0x" ++ "22", "0x" ++ "11"]
           :: ["hciconfig", "hci0", "reset"]
           :: spoofTrace [] []) :=
  replace_mac_addresses_swaps_octets "/org/bluez/hci0" "11:22:33:44:55:66" "hci0"
    "11" "22" "33" "44" "55" "66" [] [] (by rfl) (by rfl) (by rfl)

/-- C3 counterexample: the claim says `clear_input_list` invoked while
`playing` is true also sets `playing` to false. On the concrete wrapper
with `playing = true` and one recorded packet, the handler leaves
`playing` true. -/
theorem clear_input_list_keeps_playing :
    ¬ (clear_input_list (⟨0, false, true, some [1]⟩ : Wrapper Nat)).playing = false := by
  decide

/-- C3 amended: `clear_input_list` assigns the empty list to the
`input_list` key and changes nothing else — in particular `playing` (and
`recording` and the desired packet) keep their previous values. -/
theorem clear_input_list_only_clears {P : Type} (w : Wrapper P) :
    (clear_input_list w).input_list = some [] ∧
    (clear_input_list w).playing = w.playing ∧
    (clear_input_list w).recording = w.recording ∧
    (clear_input_list w).packet = w.packet :=
  ⟨rfl, rfl, rfl, rfl⟩

/-- C4: when `playing` is true, one iteration of the transmission loop
transmits the recorded sequence and returns the state unchanged — the
recording-append branch is unreachable behind the `continue`, whatever
the value of `recording`, so no tick both plays back and appends. -/
theorem main_tick_playback_never_appends {P : Type} (s : LoopState P)
    (hplay : s.playing = true) :
    main_tick s = (s.input_list, s) := by
  simp [main_tick, hplay]

/-- Witness for C4: a tick with both flags set plays back `[4, 5]` and
appends nothing. -/
theorem main_tick_playback_never_appends_witness :
    main_tick (⟨0, true, true, [4, 5]⟩ : LoopState Nat)
      = ([4, 5], (⟨0, true, true, [4, 5]⟩ : LoopState Nat)) :=
  main_tick_playback_never_appends (⟨0, true, true, [4, 5]⟩ : LoopState Nat) rfl

/-- C5: `toggle_clean_bluez` is a no-op with respect to writes and service
restarts when the host already matches the request: enabling with the
override file present, or disabling with it absent, performs no action at
all (empty effect trace, no exception). -/
theorem toggle_clean_bluez_idempotent (env : SystemdEnv) :
    (env.override_exists = true → toggle_clean_bluez true env = Except.ok []) ∧
    (env.override_exists = false → toggle_clean_bluez false env = Except.ok []) := by
  constructor <;> intro h <;> simp [toggle_clean_bluez, h]

/-- Witness for C5: both no-op branches on concrete host states. -/
theorem toggle_clean_bluez_idempotent_witness :
    toggle_clean_bluez true ⟨true, []⟩ = Except.ok [] ∧
    toggle_clean_bluez false ⟨false, []⟩ = Except.ok [] :=
  ⟨(toggle_clean_bluez_idempotent ⟨true, []⟩).1 rfl,
   (toggle_clean_bluez_idempotent ⟨false, []⟩).2 rfl⟩

/-- During a recording session (recording on, playback off) the loop
appends exactly the fed packets, in order, to the tail of the recorded
sequence, and leaves both mode flags untouched. -/
theorem record_session_appends {P : Type} (ps : List P) :
    ∀ s : LoopState P, s.recording = true → s.playing = false →
      (record_session s ps).input_list = s.input_list ++ ps ∧
      (record_session s ps).recording = true ∧
      (record_session s ps).playing = false := by
  induction ps with
  | nil =>
    intro s hrec hplay
    simp [record_session, hrec, hplay]
  | cons p ps ih =>
    intro s hrec hplay
    have hstep : record_session s (p :: ps)
        = record_session { s with packet := p, input_list := s.input_list ++ [p] } ps := by
      simp [record_session, main_tick, hrec, hplay]
    rw [hstep]
    obtain ⟨h1, h2, h3⟩ :=
      ih { s with packet := p, input_list := s.input_list ++ [p] } hrec hplay
    refine ⟨?_, h2, h3⟩
    rw [h1]
    simp

/-- C6: round-trip. Feeding the packets `ps` through the loop during a
recording session started on an empty sequence records exactly `ps`, and
the first playback pass after setting `playing` transmits exactly `ps`:
same order, content-equal packets (the `json` copies are identities on
content). -/
theorem record_playback_roundtrip {P : Type} (s : LoopState P) (ps : List P)
    (hrec : s.recording = true) (hplay : s.playing = false)
    (hempty : s.input_list = []) :
    (record_session s ps).input_list = ps ∧
    (main_tick { record_session s ps with playing := true }).1 = ps := by
  obtain ⟨h1, _, _⟩ := record_session_appends ps s hrec hplay
  rw [hempty] at h1
  simp only [List.nil_append] at h1
  refine ⟨h1, ?_⟩
  simp [main_tick]
  exact h1

/-- Witness for C6: recording `[7, 8, 9]` and playing it back emits
`[7, 8, 9]`. -/
theorem record_playback_roundtrip_witness :
    (record_session (⟨0, true, false, []⟩ : LoopState Nat) [7, 8, 9]).input_list = [7, 8, 9] ∧
    (main_tick { record_session (⟨0, true, false, []⟩ : LoopState Nat) [7, 8, 9]
                  with playing := true }).1 = [7, 8, 9] :=
  record_playback_roundtrip (⟨0, true, false, []⟩ : LoopState Nat) [7, 8, 9] rfl rfl rfl

/-- C7: a playback tick over an empty recorded sequence transmits nothing
and leaves the state exactly as it was — the `for` loop iterates zero
times and performs no indexing, so the iteration returns normally and the
loop idles until the state changes. -/
theorem main_tick_empty_playback_idles {P : Type} (s : LoopState P)
    (hplay : s.playing = true) (hempty : s.input_list = []) :
    main_tick s = ([], s) := by
  simp [main_tick, hplay, hempty]

/-- Witness for C7: playback started on an empty sequence. -/
theorem main_tick_empty_playback_idles_witness :
    main_tick (⟨0, false, true, []⟩ : LoopState Nat)
      = ([], (⟨0, false, true, []⟩ : LoopState Nat)) :=
  main_tick_empty_playback_idles (⟨0, false, true, []⟩ : LoopState Nat) rfl rfl

/-- C8: the claim says construction fails with the adapter-not-found
error whenever no adapter exposes `org.bluez.Adapter1`, both with and
without an explicit path hint. With an empty managed-object set (no
adapter at all), passing the hint `/org/bluez/hci0` (the default
argument) succeeds with the unvalidated path — the error is only raised
on the hint-less search. -/
theorem blueZ_init_hint_unvalidated :
    blueZ_init [] (some "/org/bluez/hci0") = Except.ok "/org/bluez/hci0" ∧
    blueZ_init [] none = Except.error "Unable to find a bluetooth adapter" :=
  ⟨rfl, rfl⟩

/-- C9 counterexample: the claim says `_run_command` raises exactly when
stderr is non-empty. A run whose stderr is a single newline is non-empty,
yet the newline-stripping leaves the empty string and the call
succeeds. -/
theorem run_command_newline_stderr_ok :
    run_command ⟨"", "\n", 0⟩ = Except.ok ⟨"", "\n", 0⟩ ∧ ("\n" : String) ≠ "" := by
  constructor
  · rfl
  · decide

/-- C9 amended: `_run_command` raises if and only if the captured stderr
with every newline character removed is non-empty, and the exit code is
never inspected — changing only the return code never changes success
into failure or back. -/
theorem run_command_ignores_returncode (r : ProcResult) :
    (run_command r = Except.ok r ↔ removeNewlines r.stderr = "") ∧
    ((∃ e, run_command r = Except.error e) ↔ removeNewlines r.stderr ≠ "") ∧
    (∀ c : Int, (run_command { r with returncode := c }).isOk = (run_command r).isOk) := by
  by_cases h : removeNewlines r.stderr = "" <;>
    simp [run_command, h, Except.isOk, Except.toBool]

/-- C10: in the freshly initialised wrapper the `input_list` key does not
exist, and the gamepad/recording/playing endpoints never create it, so a
`GET /api/get_input_list` issued before the connected phase and before
any set/clear request yields `KeyError` rather than an empty list; the
connected phase, a clear, or a set is exactly what creates the key. -/
theorem get_input_list_keyerror_before_connected {P : Type} (idle j : P) (l : List P)
    (b b' : Bool) :
    get_input_list (initial_wrapper idle) = Except.error "KeyError: input_list" ∧
    get_input_list (get_gamepad (set_recording (set_playing (initial_wrapper idle) b) b') j)
      = Except.error "KeyError: input_list" ∧
    get_input_list (connected_init (initial_wrapper idle)) = Except.ok [] ∧
    get_input_list (clear_input_list (initial_wrapper idle)) = Except.ok [] ∧
    get_input_list (set_input_list (initial_wrapper idle) l) = Except.ok l :=
  ⟨rfl, rfl, rfl, rfl, rfl⟩
